import Mathlib

/-!
# ImageQuery: a shallow embedding of `image.py`

The script reads an image file, base64-encodes it, submits a single
chat-completion request containing a text part and a JPEG data-URI image
part, and prints `choices[0].message.content` from the response.  The
filesystem and the remote service are the only effects; both are modelled
as components of an explicit `World`, and the observable behaviour of a
run is a trace of events (file open/close, outbound request, printed line)
together with an `Except` result.
-/

namespace ImageQuery

/-! ## Base64 (the `base64.b64encode` standard alphabet, RFC 4648) -/

/-- The 64-character standard base64 alphabet used by `base64.b64encode`. -/
def b64Alphabet : List Char :=
  "ABCDEFGHIJKLMNOPQRSTUVWXYZabcdefghijklmnopqrstuvwxyz0123456789+/".toList

/-- Character for a six-bit group (defined for inputs below 64). -/
def sextetChar (n : Nat) : Char := b64Alphabet.getD n '?'

/-- Position of a character in the base64 alphabet (64 when absent). -/
def sextetValAux : List Char → Char → Nat
  | [], _ => 64
  | a :: rest, c => if a = c then 0 else sextetValAux rest c + 1

/-- Six-bit value of a base64 alphabet character. -/
def sextetVal (c : Char) : Nat := sextetValAux b64Alphabet c

/-- The four base64 characters of a full three-byte group. -/
def encChunk3 (b0 b1 b2 : Nat) : List Char :=
  [sextetChar (b0 / 4),
   sextetChar ((b0 % 4) * 16 + b1 / 16),
   sextetChar ((b1 % 16) * 4 + b2 / 64),
   sextetChar (b2 % 64)]

/-- Standard base64 encoding of a byte sequence, with `=` padding, as
performed by `base64.b64encode` in the script. -/
def b64encode : List Nat → List Char
  | b0 :: b1 :: b2 :: rest => encChunk3 b0 b1 b2 ++ b64encode rest
  | [b0, b1] => [sextetChar (b0 / 4), sextetChar ((b0 % 4) * 16 + b1 / 16),
                 sextetChar ((b1 % 16) * 4), '=']
  | [b0] => [sextetChar (b0 / 4), sextetChar ((b0 % 4) * 16), '=', '=']
  | [] => []

/-- Standard base64 decoding (the inverse direction named by the spec's
round-trip property). -/
def b64decode : List Char → List Nat
  | c0 :: c1 :: c2 :: c3 :: rest =>
    if c2 = '=' then
      [sextetVal c0 * 4 + sextetVal c1 / 16]
    else if c3 = '=' then
      [sextetVal c0 * 4 + sextetVal c1 / 16,
       (sextetVal c1 % 16) * 16 + sextetVal c2 / 4]
    else
      [sextetVal c0 * 4 + sextetVal c1 / 16,
       (sextetVal c1 % 16) * 16 + sextetVal c2 / 4,
       (sextetVal c2 % 4) * 64 + sextetVal c3] ++ b64decode rest
  | _ => []

/-! ## Request and response data model -/

/-- A typed part of a user message: a `text` part or an `image_url` part. -/
inductive ContentPart
  | text (text : String)
  | image_url (url : String)
  deriving DecidableEq

/-- A role-tagged chat message whose content is a list of typed parts. -/
structure ChatMessage where
  role : String
  content : List ContentPart
  deriving DecidableEq

/-- The request body: a model identifier and a list of messages. -/
structure ChatRequest where
  model : String
  messages : List ChatMessage
  deriving DecidableEq

/-- The `message` object inside a response choice. -/
structure RespMessage where
  content : String
  deriving DecidableEq

/-- One completion choice of the response. -/
structure Choice where
  message : RespMessage
  deriving DecidableEq

/-- The response body: a list of choices. -/
structure ChatResponse where
  choices : List Choice
  deriving DecidableEq

/-- The failure taxonomy of the spec: file access, authentication, other
remote failures, a response missing `choices[0]`, and the Python
`NameError` raised when an undefined name is evaluated. -/
inductive ApiError
  | fileAccessError (path : String)
  | authenticationError
  | serviceError
  | responseShapeError
  | nameError (name : String)
  deriving DecidableEq

/-- Observable events of a run: file handle acquisition and release, the
outbound network request, and a line printed to standard output. -/
inductive Event
  | fileOpen (path : String)
  | fileClose (path : String)
  | request (req : ChatRequest)
  | printLine (line : String)
  deriving DecidableEq

/-- The environment of a run: the filesystem (readable files and their
bytes) and the remote chat-completion service. -/
structure World where
  fs : String → Option (List Nat)
  service : ChatRequest → Except ApiError ChatResponse

/-- The requests contained in a trace, in order. -/
def requestsOf (tr : List Event) : List ChatRequest :=
  tr.filterMap fun e => match e with
    | Event.request r => some r
    | _ => none

/-- The lines printed to standard output in a trace, in order. -/
def printedLines (tr : List Event) : List String :=
  tr.filterMap fun e => match e with
    | Event.printLine s => some s
    | _ => none

/-- The image-URL strings of all `image_url` parts of a request. -/
def imageUrls (r : ChatRequest) : List String :=
  (r.messages.map fun m => m.content.filterMap fun part =>
    match part with
    | ContentPart.image_url u => some u
    | _ => none).flatten

/-! ## The embedded program -/

/-- The `with open(image_path, "rb") as image_file:` block: on a missing or
unreadable path the open fails with `FileAccessError`; otherwise the handle
is opened, the body runs on the file bytes, and the handle is closed when
the block is left, whether the body succeeded or failed. -/
def withOpenFile {α : Type} (w : World) (path : String)
    (body : List Nat → List Event × Except ApiError α) :
    List Event × Except ApiError α :=
  match w.fs path with
  | none => ([], Except.error (ApiError.fileAccessError path))
  | some bytes =>
    let r := body bytes
    (Event.fileOpen path :: r.1 ++ [Event.fileClose path], r.2)

/-- The request body built at `client.chat.completions.create(...)`: the
fixed model identifier and a single user message holding the text prompt
and the JPEG data URI around the base64 payload. -/
def buildRequest (text_prompt base64_image : String) : ChatRequest :=
  { model := "gpt-4.1-mini-2025-04-14"
    messages := [{ role := "user"
                   content := [ContentPart.text text_prompt,
                               ContentPart.image_url
                                 ("data:image/jpeg;base64," ++ base64_image)] }] }

/-- `analyze_image(image_path, text_prompt, api_key)`: read and base64-encode
the file inside a `with` block, submit one chat-completion request, and
print `response.choices[0].message.content`.  The credential's validity is
reflected by the world's service; errors are never caught. -/
def analyze_image (w : World) (image_path text_prompt api_key : String) :
    List Event × Except ApiError Unit :=
  let enc := withOpenFile w image_path
    (fun bytes => ([], Except.ok (String.mk (b64encode bytes))))
  match enc.2 with
  | Except.error e => (enc.1, Except.error e)
  | Except.ok base64_image =>
    let req := buildRequest text_prompt base64_image
    match w.service req with
    | Except.error e => (enc.1 ++ [Event.request req], Except.error e)
    | Except.ok response =>
      match response.choices.head? with
      | none => (enc.1 ++ [Event.request req], Except.error ApiError.responseShapeError)
      | some choice =>
        (enc.1 ++ [Event.request req, Event.printLine choice.message.content],
         Except.ok ())

/-! ## Module-level code -/

/-- The module-level constant `target`. -/
def target : String := "submit text button"

/-- The module-level f-string `quadrant_input`, with `target` interpolated. -/
def quadrant_input : String :=
  "\n<task>\nIdentify which numbered section contains the " ++ target ++
  " in the provided image.\n</task>\n\n<instructions>\n1. Locate your target: the " ++
  target ++
  " in the image\n2. Determine which red-numbered section it primarily occupies\n3. If the input field spans multiple sections, choose the section that contains the center/majority of the target\n4. Look specifically for text input elements like search bars, text boxes, or prompt input areas\n</instructions>\n\n<format>\nReturn only the section number (1-40) that best represents the location of the text input field.\n</format>\n"

/-- The module namespace when the `def analyze_image(...)` statement runs:
only the two imported modules are bound; `OPENAI_API_KEY` is not. -/
def moduleEnv : List (String × String) :=
  [("openai", "<module openai>"), ("base64", "<module base64>")]

/-- Evaluating the module: the `def` statement evaluates its default-value
expression `OPENAI_API_KEY` in the module namespace; on a missing name
Python raises `NameError` and the module halts.  Otherwise execution would
reach the call `analyze_image("claude-2-result-2.png", quadrant_input)`. -/
def runModule (w : World) : List Event × Except ApiError Unit :=
  match moduleEnv.lookup "OPENAI_API_KEY" with
  | none => ([], Except.error (ApiError.nameError "OPENAI_API_KEY"))
  | some key => analyze_image w "claude-2-result-2.png" quadrant_input key

/-! ## Concrete worlds used as witnesses -/

/-- A world with a readable image and a service answering `"17"`. -/
def wOk : World :=
  { fs := fun p => if p = "grid.png" then some [0, 77, 255, 10] else none
    service := fun _ => Except.ok { choices := [{ message := { content := "17" } }] } }

/-- A world whose service rejects the credential. -/
def wAuth : World :=
  { fs := fun p => if p = "grid.png" then some [0, 77, 255, 10] else none
    service := fun _ => Except.error ApiError.authenticationError }

/-- A world with no readable files. -/
def wNoFile : World :=
  { fs := fun _ => none
    service := fun _ => Except.error ApiError.serviceError }

/-- A world whose service returns a response with an empty `choices` list. -/
def wNoChoice : World :=
  { fs := fun p => if p = "grid.png" then some [0, 77, 255, 10] else none
    service := fun _ => Except.ok { choices := [] } }

/-- A world matching the actual script run: `claude-2-result-2.png` exists
(bytes starting with the JPEG magic) and the service works. -/
def wRun : World :=
  { fs := fun p => if p = "claude-2-result-2.png" then some [255, 216, 255, 224] else none
    service := fun _ => Except.ok { choices := [{ message := { content := "17" } }] } }

/-! ## Base64 lemmas -/

/-- Decoding a base64 character produced from a six-bit value recovers it. -/
theorem sextetVal_sextetChar (n : Nat) (h : n < 64) :
    sextetVal (sextetChar n) = n := by
  have key : ∀ m : Fin 64, sextetVal (sextetChar m.val) = m.val := by decide
  exact key ⟨n, h⟩

/-- No base64 alphabet character is the padding character. -/
theorem sextetChar_ne_pad (n : Nat) (h : n < 64) : sextetChar n ≠ '=' := by
  have key : ∀ m : Fin 64, sextetChar m.val ≠ '=' := by decide
  exact key ⟨n, h⟩

/-- C3: for every sequence of image file bytes, base64-decoding the
EncodedPayload built from those bytes (the `b64encode` output that
`analyze_image` embeds in its request) reproduces the exact original file
bytes. -/
theorem b64decode_b64encode :
    ∀ bytes : List Nat, (∀ b ∈ bytes, b < 256) →
      b64decode (b64encode bytes) = bytes
  | [] => fun _ => rfl
  | [a] => fun h => by
    have ha : a < 256 := h a (by simp)
    simp only [b64encode, b64decode]
    rw [if_pos trivial]
    rw [sextetVal_sextetChar _ (by omega), sextetVal_sextetChar _ (by omega)]
    simp only [List.cons.injEq, and_true]
    omega
  | [a, b] => fun h => by
    have ha : a < 256 := h a (by simp)
    have hb : b < 256 := h b (by simp)
    simp only [b64encode, b64decode]
    rw [if_neg (sextetChar_ne_pad _ (by omega)), if_pos trivial]
    rw [sextetVal_sextetChar _ (by omega), sextetVal_sextetChar _ (by omega),
        sextetVal_sextetChar _ (by omega)]
    simp only [List.cons.injEq, and_true]
    omega
  | a :: b :: c :: rest => fun h => by
    have ha : a < 256 := h a (by simp)
    have hb : b < 256 := h b (by simp)
    have hc : c < 256 := h c (by simp)
    have ih := b64decode_b64encode rest (fun x hx => h x (by simp [hx]))
    simp only [b64encode, encChunk3, List.cons_append, List.nil_append, b64decode]
    rw [if_neg (sextetChar_ne_pad _ (by omega)), if_neg (sextetChar_ne_pad _ (by omega))]
    rw [sextetVal_sextetChar _ (by omega), sextetVal_sextetChar _ (by omega),
        sextetVal_sextetChar _ (by omega), sextetVal_sextetChar _ (by omega)]
    simp only [List.cons_append, List.nil_append, List.cons.injEq]
    refine ⟨by omega, by omega, by omega, ih⟩

/-- Witness for C3 at a concrete byte sequence. -/
theorem b64decode_b64encode_witness :
    (∀ b ∈ [0, 77, 255, 10], b < 256) ∧
      b64decode (b64encode [0, 77, 255, 10]) = [0, 77, 255, 10] :=
  ⟨by decide, b64decode_b64encode [0, 77, 255, 10] (by decide)⟩

/-! ## Behaviour of `analyze_image` and of the module run -/

/-- C1: for a valid image path, a non-empty prompt, and a service returning
a response with a first choice, one invocation of `analyze_image` issues
exactly one outbound request and prints exactly one line, equal to the
response's `choices[0].message.content`; and the printed output depends on
no other field of the response. -/
theorem analyze_image_success (w : World) (p t k : String) (bytes : List Nat)
    (resp : ChatResponse) (c : Choice)
    (hfs : w.fs p = some bytes) (ht : t ≠ "")
    (hsrv : w.service (buildRequest t (String.mk (b64encode bytes))) = Except.ok resp)
    (hc : resp.choices.head? = some c) :
    requestsOf (analyze_image w p t k).1 =
      [buildRequest t (String.mk (b64encode bytes))] ∧
    printedLines (analyze_image w p t k).1 = [c.message.content] ∧
    ∀ (w' : World) (resp' : ChatResponse) (c' : Choice),
      w'.fs p = some bytes →
      w'.service (buildRequest t (String.mk (b64encode bytes))) = Except.ok resp' →
      resp'.choices.head? = some c' →
      c'.message.content = c.message.content →
      printedLines (analyze_image w' p t k).1 =
        printedLines (analyze_image w p t k).1 := by
  refine ⟨?_, ?_, ?_⟩
  · simp [analyze_image, withOpenFile, hfs, hsrv, hc, requestsOf]
  · simp [analyze_image, withOpenFile, hfs, hsrv, hc, printedLines]
  · intro w' resp' c' hfs' hsrv' hc' hcontent
    simp [analyze_image, withOpenFile, hfs, hsrv, hc, hfs', hsrv', hc',
      printedLines, hcontent]

/-- Witness for C1: with a readable `grid.png` and a service answering
`"17"`, the single printed line is `"17"`. -/
theorem analyze_image_success_witness :
    printedLines (analyze_image wOk "grid.png"
      "Identify section 1-40 containing the search bar" "sk-key").1 = ["17"] :=
  (analyze_image_success wOk "grid.png"
    "Identify section 1-40 containing the search bar" "sk-key"
    [0, 77, 255, 10] { choices := [{ message := { content := "17" } }] }
    { message := { content := "17" } } rfl (by decide) rfl rfl).2.1

/-- C2: on an image path that names no existing readable file,
`analyze_image` fails with `FileAccessError` and its trace is empty: no
file handle, no request payload, no network call, no output. -/
theorem analyze_image_missing_file (w : World) (p t k : String)
    (hfs : w.fs p = none) :
    analyze_image w p t k = ([], Except.error (ApiError.fileAccessError p)) := by
  simp [analyze_image, withOpenFile, hfs]

/-- Witness for C2 at a concrete world with no readable files. -/
theorem analyze_image_missing_file_witness :
    analyze_image wNoFile "missing.png" "find the search bar" "sk-key" =
      ([], Except.error (ApiError.fileAccessError "missing.png")) :=
  analyze_image_missing_file wNoFile "missing.png" "find the search bar" "sk-key" rfl

/-- C4: whatever the bytes of the input file, the request built by
`analyze_image` carries exactly one image part, whose URL is the literal
`data:image/jpeg;base64,` followed by the base64 encoding of the file
bytes — the declared media type is always JPEG. -/
theorem analyze_image_jpeg_data_uri (w : World) (p t k : String)
    (bytes : List Nat) (hfs : w.fs p = some bytes) :
    requestsOf (analyze_image w p t k).1 =
      [buildRequest t (String.mk (b64encode bytes))] ∧
    imageUrls (buildRequest t (String.mk (b64encode bytes))) =
      ["data:image/jpeg;base64," ++ String.mk (b64encode bytes)] := by
  constructor
  · rcases hs : w.service (buildRequest t (String.mk (b64encode bytes))) with e | resp
    · simp [analyze_image, withOpenFile, hfs, hs, requestsOf]
    · rcases hh : resp.choices.head? with _ | c <;>
        simp [analyze_image, withOpenFile, hfs, hs, hh, requestsOf]
  · simp [imageUrls, buildRequest]

/-- Witness for C4 at a concrete world and byte sequence. -/
theorem analyze_image_jpeg_data_uri_witness :
    imageUrls (buildRequest "find the search bar"
        (String.mk (b64encode [0, 77, 255, 10]))) =
      ["data:image/jpeg;base64," ++ String.mk (b64encode [0, 77, 255, 10])] :=
  (analyze_image_jpeg_data_uri wOk "grid.png" "find the search bar" "sk-key"
    [0, 77, 255, 10] rfl).2

/-- C5: evaluating the module raises `NameError` at the `def` statement of
`analyze_image`, whose default value `OPENAI_API_KEY` is a name bound
nowhere in the module namespace; the run halts with an empty trace — no
file read, no request, no printed output. -/
theorem runModule_name_error (w : World) :
    runModule w = ([], Except.error (ApiError.nameError "OPENAI_API_KEY")) := rfl

/-- C6: evaluated at a world where the hardcoded image exists and the
service works, the module run still issues zero outbound requests and
prints nothing, ending in the `NameError` — against the spec's
exactly-one-request-per-run invariant. -/
theorem runModule_zero_requests :
    requestsOf (runModule wRun).1 = [] ∧
    printedLines (runModule wRun).1 = [] ∧
    (runModule wRun).2 = Except.error (ApiError.nameError "OPENAI_API_KEY") :=
  ⟨rfl, rfl, rfl⟩

/-- C7: `analyze_image` catches nothing: a failed file open yields exactly
the `FileAccessError`, any service error (authentication or otherwise) is
returned unchanged with no output, and a response without `choices[0]`
yields the response-shape failure — no retry or fallback path exists. -/
theorem analyze_image_propagates (w : World) (p t k : String) :
    (w.fs p = none →
      (analyze_image w p t k).2 = Except.error (ApiError.fileAccessError p)) ∧
    (∀ (bytes : List Nat) (e : ApiError), w.fs p = some bytes →
      w.service (buildRequest t (String.mk (b64encode bytes))) = Except.error e →
      (analyze_image w p t k).2 = Except.error e ∧
      printedLines (analyze_image w p t k).1 = []) ∧
    (∀ (bytes : List Nat) (resp : ChatResponse), w.fs p = some bytes →
      w.service (buildRequest t (String.mk (b64encode bytes))) = Except.ok resp →
      resp.choices = [] →
      (analyze_image w p t k).2 = Except.error ApiError.responseShapeError) := by
  refine ⟨fun hfs => ?_, fun bytes e hfs hsrv => ?_, fun bytes resp hfs hsrv hch => ?_⟩
  · simp [analyze_image, withOpenFile, hfs]
  · constructor
    · simp [analyze_image, withOpenFile, hfs, hsrv]
    · simp [analyze_image, withOpenFile, hfs, hsrv, printedLines]
  · simp [analyze_image, withOpenFile, hfs, hsrv, hch]

/-- Witness for C7: the three failure kinds observed at concrete worlds. -/
theorem analyze_image_propagates_witness :
    (analyze_image wNoFile "missing.png" "t" "k").2 =
      Except.error (ApiError.fileAccessError "missing.png") ∧
    (analyze_image wAuth "grid.png" "t" "k").2 =
      Except.error ApiError.authenticationError ∧
    (analyze_image wNoChoice "grid.png" "t" "k").2 =
      Except.error ApiError.responseShapeError :=
  ⟨(analyze_image_propagates wNoFile "missing.png" "t" "k").1 rfl,
   ((analyze_image_propagates wAuth "grid.png" "t" "k").2.1 [0, 77, 255, 10]
      ApiError.authenticationError rfl rfl).1,
   (analyze_image_propagates wNoChoice "grid.png" "t" "k").2.2 [0, 77, 255, 10]
      { choices := [] } rfl rfl rfl⟩

/-- C8: the file handle is acquired and released entirely within the
encoding step: for any body — succeeding or failing — the `with` block
closes the handle it opened, and in `analyze_image` the open/close pair
precedes everything else in the trace, in particular the remote call. -/
theorem file_handle_scoped (w : World) (p t k : String) :
    (∀ (α : Type) (body : List Nat → List Event × Except ApiError α)
       (bytes : List Nat), w.fs p = some bytes →
      (withOpenFile w p body).1 =
        Event.fileOpen p :: (body bytes).1 ++ [Event.fileClose p] ∧
      (withOpenFile w p body).2 = (body bytes).2) ∧
    (∀ bytes : List Nat, w.fs p = some bytes →
      ∃ rest : List Event,
        (analyze_image w p t k).1 =
          Event.fileOpen p :: Event.fileClose p :: rest ∧
        Event.fileOpen p ∉ rest ∧ Event.fileClose p ∉ rest) := by
  constructor
  · intro α body bytes hfs
    simp [withOpenFile, hfs]
  · intro bytes hfs
    rcases hs : w.service (buildRequest t (String.mk (b64encode bytes))) with e | resp
    · refine ⟨[Event.request (buildRequest t (String.mk (b64encode bytes)))], ?_, by simp, by simp⟩
      simp [analyze_image, withOpenFile, hfs, hs]
    · rcases hh : resp.choices.head? with _ | c
      · refine ⟨[Event.request (buildRequest t (String.mk (b64encode bytes)))], ?_, by simp, by simp⟩
        simp [analyze_image, withOpenFile, hfs, hs, hh]
      · refine ⟨[Event.request (buildRequest t (String.mk (b64encode bytes))),
                 Event.printLine c.message.content], ?_, by simp, by simp⟩
        simp [analyze_image, withOpenFile, hfs, hs, hh]

/-- Witness for C8: the scoped open/close shape evaluated at a concrete
world and a concrete (trivial) body. -/
theorem file_handle_scoped_witness :
    (withOpenFile wOk "grid.png" (fun bytes => ([], Except.ok bytes))).1 =
      Event.fileOpen "grid.png" :: ([] : List Event) ++ [Event.fileClose "grid.png"] :=
  ((file_handle_scoped wOk "grid.png" "t" "k").1 (List Nat)
    (fun bytes => ([], Except.ok bytes)) [0, 77, 255, 10] rfl).1

/-- C9: on an invalid credential the service rejects the call: the request
is issued (it appears in the trace, after the file was read and the payload
built), the result is exactly `AuthenticationError`, and nothing is
printed. -/
theorem analyze_image_auth_error (w : World) (p t k : String) (bytes : List Nat)
    (hfs : w.fs p = some bytes)
    (hsrv : w.service (buildRequest t (String.mk (b64encode bytes))) =
      Except.error ApiError.authenticationError) :
    (analyze_image w p t k).2 = Except.error ApiError.authenticationError ∧
    requestsOf (analyze_image w p t k).1 =
      [buildRequest t (String.mk (b64encode bytes))] ∧
    printedLines (analyze_image w p t k).1 = [] := by
  refine ⟨?_, ?_, ?_⟩
  · simp [analyze_image, withOpenFile, hfs, hsrv]
  · simp [analyze_image, withOpenFile, hfs, hsrv, requestsOf]
  · simp [analyze_image, withOpenFile, hfs, hsrv, printedLines]

/-- Witness for C9 at a world whose service rejects the credential. -/
theorem analyze_image_auth_error_witness :
    (analyze_image wAuth "grid.png" "find the search bar" "bad-key").2 =
      Except.error ApiError.authenticationError :=
  (analyze_image_auth_error wAuth "grid.png" "find the search bar" "bad-key"
    [0, 77, 255, 10] rfl rfl).1

/-- C10: the submitted request always has the fixed model identifier
`gpt-4.1-mini-2025-04-14` and exactly one message, of role `user`, whose
content is the text part carrying the prompt verbatim followed by the
image part, in that order. -/
theorem analyze_image_request_shape (w : World) (p t k : String)
    (bytes : List Nat) (hfs : w.fs p = some bytes) :
    requestsOf (analyze_image w p t k).1 =
      [buildRequest t (String.mk (b64encode bytes))] ∧
    (buildRequest t (String.mk (b64encode bytes))).model =
      "gpt-4.1-mini-2025-04-14" ∧
    (buildRequest t (String.mk (b64encode bytes))).messages =
      [{ role := "user"
         content := [ContentPart.text t,
                     ContentPart.image_url
                       ("data:image/jpeg;base64," ++ String.mk (b64encode bytes))] }] := by
  refine ⟨?_, rfl, rfl⟩
  rcases hs : w.service (buildRequest t (String.mk (b64encode bytes))) with e | resp
  · simp [analyze_image, withOpenFile, hfs, hs, requestsOf]
  · rcases hh : resp.choices.head? with _ | c <;>
      simp [analyze_image, withOpenFile, hfs, hs, hh, requestsOf]

/-- Witness for C10 at a concrete world. -/
theorem analyze_image_request_shape_witness :
    requestsOf (analyze_image wOk "grid.png" "find the search bar" "sk-key").1 =
      [buildRequest "find the search bar" (String.mk (b64encode [0, 77, 255, 10]))] :=
  (analyze_image_request_shape wOk "grid.png" "find the search bar" "sk-key"
    [0, 77, 255, 10] rfl).1

end ImageQuery
